import Mathlib

/-!
# Verification of the PrimeCuts loyalty-program business logic

Shallow embedding of `src/app.js` (the `AppUtils` utilities and the
`DatabaseHelpers` extensions) together with the ledger operations the
design document describes. JavaScript numbers are modelled as `ℚ` for
currency amounts and `ℤ` for point balances; strings as Lean `String`.
-/

namespace PrimeCuts

/-- JS `AppUtils.calculatePoints(amount) = Math.floor(amount / 100) * 5`.
`Math.floor` rounds toward negative infinity, matching `Int.floor` on `ℚ`. -/
def calculatePoints (amount : ℚ) : ℤ :=
  ⌊amount / 100⌋ * 5

/-- JS `AppUtils.formatPhoneNumber(phone) = phone.replace(/[^\d+]/g, '')`:
keep exactly the characters that are decimal digits or `+`. -/
def formatPhoneNumber (phone : String) : String :=
  String.mk (phone.toList.filter (fun c => c.isDigit || c == '+'))

/-- The anchored regex test `/^\+\d{10,15}$/.test(s)`: the whole string is a
single `+` followed by 10 to 15 decimal digits (`\d` is `[0-9]`, matching
`Char.isDigit`). -/
def phoneRegexTest (s : String) : Bool :=
  match s.toList with
  | '+' :: rest =>
      rest.all (fun c => c.isDigit) && decide (10 ≤ rest.length) && decide (rest.length ≤ 15)
  | _ => false

/-- JS `AppUtils.isValidPhoneNumber(phone)`:
`/^\+\d{10,15}$/.test(this.formatPhoneNumber(phone))`. -/
def isValidPhoneNumber (phone : String) : Bool :=
  phoneRegexTest (formatPhoneNumber phone)

/-- The spec's canonical phone form, stated from its words (§3): a single
leading `+` followed by only digits, of which there are between 10 and 15
inclusive. Used to compare `isValidPhoneNumber` against the spec. -/
def canonicalPhoneForm (s : String) : Prop :=
  ∃ ds : List Char, s.toList = '+' :: ds ∧ (∀ c ∈ ds, c.isDigit) ∧
    10 ≤ ds.length ∧ ds.length ≤ 15

/-- A JS error object as `AppUtils.getErrorMessage` consumes it: its `code`
and `message` properties, each possibly absent (`none`) or an arbitrary
string. -/
structure JsError where
  code : Option String
  message : Option String

/-- JS truthiness for an optional string: `undefined` and `""` are falsy,
every non-empty string is truthy. -/
def truthy : Option String → Bool
  | none => false
  | some s => decide (s ≠ "")

/-- The JS `||` operator restricted to optional strings: returns the left
operand when truthy, otherwise the right operand. -/
def jsOr (a b : Option String) : Option String :=
  if truthy a then a else b

/-- The `errorMessages` object literal inside `AppUtils.getErrorMessage`,
as an association list in source order. -/
def errorMessages : List (String × String) :=
  [("auth/user-not-found", "Account not found. Please check your phone number."),
   ("auth/wrong-password", "Incorrect password. Please try again."),
   ("auth/email-already-in-use", "An account with this phone number already exists."),
   ("auth/weak-password", "Password should be at least 6 characters."),
   ("auth/too-many-requests", "Too many failed attempts. Please try again later."),
   ("auth/network-request-failed", "Network error. Please check your connection."),
   ("permission-denied", "Permission denied. Please check your credentials."),
   ("not-found", "Document not found."),
   ("already-exists", "Document already exists."),
   ("resource-exhausted", "Database quota exceeded. Please try again later."),
   ("unauthenticated", "Authentication required. Please log in again.")]

/-- JS `AppUtils.getErrorMessage(error)`:
`const code = error.code || error.message;`
`return errorMessages[code] || error.message || 'An unexpected error occurred.';`
Property access with an absent key yields `undefined` (`none` here). -/
def getErrorMessage (e : JsError) : String :=
  let code := jsOr e.code e.message
  let mapped : Option String :=
    match code with
    | none => none
    | some c => errorMessages.lookup c
  (jsOr mapped (jsOr e.message (some "An unexpected error occurred."))).getD ""

/-- A successful association-list lookup finds a pair of the list. -/
theorem lookup_mem {l : List (String × String)} {c m : String}
    (h : l.lookup c = some m) : (c, m) ∈ l := by
  induction l with
  | nil => simp [List.lookup] at h
  | cons hd tl ih =>
    rw [List.lookup] at h
    rcases hbeq : c == hd.1 with _ | _
    · rw [hbeq] at h
      simp only [List.mem_cons]
      exact Or.inr (ih h)
    · rw [hbeq] at h
      simp only [Option.some.injEq] at h
      have hfst : c = hd.1 := eq_of_beq hbeq
      have heq : (c, m) = hd := by
        rw [hfst, ← h]
      rw [heq]
      exact List.mem_cons_self hd tl

deriving instance DecidableEq for Except

/-- A document of the `purchases` collection: `customerPhone`, `amount` and
the derived `pointsEarned` (the `createdAt` timestamp is immaterial to the
ledger claims and omitted). -/
structure Purchase where
  customerPhone : String
  amount : ℚ
  pointsEarned : ℤ
deriving DecidableEq

/-- A document of the `redemptions` collection: `customerPhone`, `tier` and
`pointsSpent` (`createdAt` omitted as above). -/
structure Redemption where
  customerPhone : String
  tier : String
  pointsSpent : ℤ
deriving DecidableEq

/-- The Firestore state the ledger operations touch: the `customers`
collection as an association list from normalized phone to points balance,
plus the append-only `purchases` and `redemptions` collections. -/
structure LedgerState where
  customers : List (String × ℤ)
  purchases : List Purchase
  redemptions : List Redemption
deriving DecidableEq

/-- The spec's business-rule error taxonomy (§7) for the ledger operations. -/
inductive LedgerError
  | CustomerNotFound
  | InvalidAmount
  | InsufficientPoints
  | InvalidTier
deriving DecidableEq

/-- Document lookup by string key in a collection modelled as an
association list (first match wins, like a keyed document get). -/
def assocFind {α : Type} (l : List (String × α)) (k : String) : Option α :=
  match l with
  | [] => none
  | e :: tl => if e.1 = k then some e.2 else assocFind tl k

/-- Overwrite the balance stored under key `ph` (a keyed document update;
entries under other keys are untouched). -/
def setBalance (cs : List (String × ℤ)) (ph : String) (v : ℤ) : List (String × ℤ) :=
  cs.map (fun e => if e.1 = ph then (e.1, v) else e)

/-- The fixed redemption tiers (§4.3): "small" costs 100 points,
"large" costs 180 points; any other tier name is invalid. -/
def tierCost (tier : String) : Option ℤ :=
  if tier = "small" then some 100 else if tier = "large" then some 180 else none

/-- Modelled from the spec: `award_points` (§4.2) has no implementation
under `src/` (only `AppUtils.calculatePoints` and the design document
describe it). Looks up the Customer by normalized phone, failing with
`CustomerNotFound` if absent; rejects negative amounts with
`InvalidAmount` (§4.1); otherwise, in one atomic step, increments the
balance by `calculatePoints amount`, appends one Purchase record, and
returns the updated balance. Errors leave the state unchanged. -/
def award_points (st : LedgerState) (customerPhone : String) (amount : ℚ) :
    Except LedgerError ℤ × LedgerState :=
  if amount < 0 then (Except.error LedgerError.InvalidAmount, st)
  else
    let ph := formatPhoneNumber customerPhone
    match assocFind st.customers ph with
    | none => (Except.error LedgerError.CustomerNotFound, st)
    | some pts =>
        let earned := calculatePoints amount
        (Except.ok (pts + earned),
         ⟨setBalance st.customers ph (pts + earned),
          st.purchases ++ [⟨ph, amount, earned⟩],
          st.redemptions⟩)

/-- Modelled from the spec: `redeem_points` (§4.3) has no implementation
under `src/`. Looks up the Customer by normalized phone (`CustomerNotFound`
if absent), resolves the tier against the fixed table (`InvalidTier` for
names outside the closed set), fails with `InsufficientPoints` when the
balance is below the tier cost, and otherwise atomically deducts the cost
and appends one Redemption record, returning the updated balance. Errors
leave the state unchanged. -/
def redeem_points (st : LedgerState) (customerPhone tier : String) :
    Except LedgerError ℤ × LedgerState :=
  let ph := formatPhoneNumber customerPhone
  match assocFind st.customers ph with
  | none => (Except.error LedgerError.CustomerNotFound, st)
  | some pts =>
      match tierCost tier with
      | none => (Except.error LedgerError.InvalidTier, st)
      | some cost =>
          if pts < cost then (Except.error LedgerError.InsufficientPoints, st)
          else (Except.ok (pts - cost),
            ⟨setBalance st.customers ph (pts - cost),
             st.purchases,
             st.redemptions ++ [⟨ph, tier, cost⟩]⟩)

/-- The aggregate record returned by `DatabaseHelpers.getStatistics`. -/
structure Stats where
  totalCustomers : ℕ
  totalPurchases : ℕ
  totalRedemptions : ℕ
  totalRevenue : ℚ
  totalPointsEarned : ℤ
  totalPointsRedeemed : ℤ
  activePoints : ℤ
deriving DecidableEq

/-- JS `DatabaseHelpers.getStatistics()`: one pass over the purchases
snapshot accumulating `totalRevenue` and `totalPointsEarned` together
(mirroring the single `forEach`), one pass over the redemptions snapshot
accumulating `totalPointsRedeemed`, collection sizes for the counts, and
`activePoints = totalPointsEarned - totalPointsRedeemed`. The JS guards
`data.amount || 0` only matter for malformed documents; fields here are
typed and always present. -/
def getStatistics (customers : List (String × ℤ)) (purchases : List Purchase)
    (redemptions : List Redemption) : Stats :=
  let pTotals := purchases.foldl
    (fun acc d => (acc.1 + d.amount, acc.2 + d.pointsEarned)) ((0 : ℚ), (0 : ℤ))
  let totalPointsRedeemed := redemptions.foldl (fun acc d => acc + d.pointsSpent) (0 : ℤ)
  ⟨customers.length, purchases.length, redemptions.length,
   pTotals.1, pTotals.2, totalPointsRedeemed, pTotals.2 - totalPointsRedeemed⟩

/-- A Firebase Auth account as `createCustomer` creates it. -/
structure AuthUser where
  email : String
  password : String
  uid : String
deriving DecidableEq

/-- A document of the `customers` collection as `createCustomer` writes it
(timestamp fields omitted as immaterial). -/
structure CustomerDoc where
  points : ℤ
  name : String
  uid : String
deriving DecidableEq

/-- The external state `DatabaseHelpers.createCustomer` can write: the
Firebase Auth user list and the `customers` collection. -/
structure AppState where
  authUsers : List AuthUser
  customerDocs : List (String × CustomerDoc)
deriving DecidableEq

/-- The `{success, error}` shape `createCustomer` returns (the `user` and
`phone` fields of the success case are immaterial to the claims). -/
structure CreateResult where
  success : Bool
  error : Option String
deriving DecidableEq

/-- JS `AppUtils.phoneToEmail(phone)`: template concatenation of the
formatted phone with the fixed domain suffix. -/
def phoneToEmail (phone : String) : String :=
  formatPhoneNumber phone ++ "@butchery.local"

/-- JS `DatabaseHelpers.createCustomer(phoneNumber, password, name)`:
validates the phone format and password length first, returning
`{success: false, error}` with the state untouched on failure; then checks
for an existing customer document; otherwise creates the Auth user (with
the store-generated `newUid`) and the customer document with `points: 0`
and the trimmed name. -/
def createCustomer (st : AppState) (phoneNumber password name newUid : String) :
    CreateResult × AppState :=
  if ¬ isValidPhoneNumber phoneNumber then
    (⟨false, some "Invalid phone number format"⟩, st)
  else if password.length < 6 then
    (⟨false, some "Password must be at least 6 characters"⟩, st)
  else
    let formattedPhone := formatPhoneNumber phoneNumber
    let email := phoneToEmail formattedPhone
    if (assocFind st.customerDocs formattedPhone).isSome then
      (⟨false, some "Customer with this phone number already exists"⟩, st)
    else
      (⟨true, none⟩,
       ⟨st.authUsers ++ [⟨email, password, newUid⟩],
        st.customerDocs ++ [(formattedPhone, ⟨0, name.trim, newUid⟩)]⟩)

/-- Bridge lemma: the anchored regex accepts exactly the canonical phone
form described in the spec. -/
theorem phoneRegexTest_iff_canonical (s : String) :
    phoneRegexTest s = true ↔ canonicalPhoneForm s := by
  unfold phoneRegexTest canonicalPhoneForm
  constructor
  · intro hv
    split at hv
    · next rest heq =>
      refine ⟨rest, heq, ?_⟩
      simp only [Bool.and_eq_true, decide_eq_true_eq, List.all_eq_true] at hv
      exact ⟨hv.1.1, hv.1.2, hv.2⟩
    · exact absurd hv (by simp)
  · rintro ⟨ds, hds, hdig, h10, h15⟩
    rw [hds]
    simp [List.all_eq_true, h10, h15]
    exact hdig

/-- C1: for every amount ≥ 0, `calculatePoints` returns `5 * ⌊amount / 100⌋`;
it returns 0 for every amount < 100; and on 0, 99, 100, 250, 1000 it returns
0, 0, 5, 10, 50. (It is a pure Lean function, hence deterministic and
side-effect free.) -/
theorem calculatePoints_correct :
    (∀ a : ℚ, 0 ≤ a → calculatePoints a = 5 * ⌊a / 100⌋) ∧
    (∀ a : ℚ, 0 ≤ a → a < 100 → calculatePoints a = 0) ∧
    calculatePoints 0 = 0 ∧ calculatePoints 99 = 0 ∧ calculatePoints 100 = 5 ∧
    calculatePoints 250 = 10 ∧ calculatePoints 1000 = 50 := by
  refine ⟨fun a _ => by rw [calculatePoints, mul_comm], fun a h0 h100 => ?_, ?_, ?_, ?_, ?_, ?_⟩
  · unfold calculatePoints
    have hz : ⌊a / 100⌋ = 0 := by
      rw [Int.floor_eq_zero_iff]
      constructor
      · positivity
      · rw [div_lt_one (by norm_num)]
        linarith
    rw [hz]
    ring
  all_goals norm_num [calculatePoints]

/-- Witness for C1: the general formula applied at the concrete amount 250. -/
theorem calculatePoints_correct_witness :
    (0 : ℚ) ≤ 250 ∧ calculatePoints 250 = 5 * ⌊(250 : ℚ) / 100⌋ :=
  ⟨by norm_num, calculatePoints_correct.1 250 (by norm_num)⟩

/-- C2 counterexample: at the negative amount −50, `calculatePoints` does not
reject the input; it returns the numeric result −5
(`Math.floor(-0.5) * 5 = -5`). -/
theorem calculatePoints_neg_counterexample :
    (-50 : ℚ) < 0 ∧ calculatePoints (-50) = -5 := by
  constructor
  · norm_num
  · norm_num [calculatePoints]

/-- C2 amended: for every negative amount, `calculatePoints` still returns
the numeric value `5 * ⌊amount / 100⌋`, which is at most −5 (so never a
valid points total); no error is raised. -/
theorem calculatePoints_neg_behavior (a : ℚ) (h : a < 0) :
    calculatePoints a = 5 * ⌊a / 100⌋ ∧ calculatePoints a ≤ -5 := by
  constructor
  · rw [calculatePoints, mul_comm]
  · unfold calculatePoints
    have hlt : ⌊a / 100⌋ < 0 := by
      rw [Int.floor_lt]
      push_cast
      exact div_neg_of_neg_of_pos h (by norm_num)
    linarith

/-- Witness for C2's amended statement at amount −50. -/
theorem calculatePoints_neg_behavior_witness :
    calculatePoints (-50) = 5 * ⌊(-50 : ℚ) / 100⌋ ∧ calculatePoints (-50) ≤ -5 :=
  calculatePoints_neg_behavior (-50) (by norm_num)

/-- C9: `formatPhoneNumber` is idempotent — normalizing an already
normalized phone number changes nothing. -/
theorem formatPhoneNumber_idem (p : String) :
    formatPhoneNumber (formatPhoneNumber p) = formatPhoneNumber p := by
  unfold formatPhoneNumber
  simp [List.filter_filter]

/-- Witness for C9 at a concrete raw phone string. -/
theorem formatPhoneNumber_idem_witness :
    formatPhoneNumber (formatPhoneNumber "+1 (234) 567-8901") =
      formatPhoneNumber "+1 (234) 567-8901" :=
  formatPhoneNumber_idem "+1 (234) 567-8901"

/-- C8: `isValidPhoneNumber p` is true exactly when the normalization
`formatPhoneNumber p` is in canonical phone form: a single leading `+`
followed by only digits, between 10 and 15 of them inclusive. -/
theorem isValidPhoneNumber_iff_canonical (p : String) :
    isValidPhoneNumber p = true ↔ canonicalPhoneForm (formatPhoneNumber p) := by
  unfold isValidPhoneNumber
  exact phoneRegexTest_iff_canonical (formatPhoneNumber p)

/-- Witness for C8 at a concrete valid phone string. -/
theorem isValidPhoneNumber_iff_canonical_witness :
    isValidPhoneNumber "+1 (234) 567-8901" = true ∧
      canonicalPhoneForm (formatPhoneNumber "+1 (234) 567-8901") :=
  ⟨by decide, (isValidPhoneNumber_iff_canonical "+1 (234) 567-8901").mp (by decide)⟩

/-- C7 counterexample: for the unrecognized code "bogus" with raw detail
"boom", `getErrorMessage` returns just "boom" — not a generic message plus
the raw error detail (the result is even shorter than the generic message,
so it cannot contain it). -/
theorem getErrorMessage_fallback_counterexample :
    errorMessages.lookup "bogus" = none ∧
    getErrorMessage ⟨some "bogus", some "boom"⟩ = "boom" ∧
    ("boom" : String).length < ("An unexpected error occurred." : String).length := by
  refine ⟨by decide, by decide, by decide⟩

/-- C7 amended: every recognized code maps to its table message; the
recognized-code-to-message table is injective (all messages pairwise
distinct); and an error with a non-empty unrecognized code falls back to
the raw error message when that is present and non-empty, otherwise to the
generic message "An unexpected error occurred.". -/
theorem getErrorMessage_behavior :
    (∀ (e : JsError) (c m : String), e.code = some c →
        errorMessages.lookup c = some m → getErrorMessage e = m) ∧
    (errorMessages.map Prod.snd).Pairwise (· ≠ ·) ∧
    (∀ (e : JsError) (c : String), e.code = some c → c ≠ "" →
        errorMessages.lookup c = none →
        getErrorMessage e =
          if truthy e.message then e.message.getD ""
          else "An unexpected error occurred.") := by
  refine ⟨fun e c m hc h => ?_, by decide, fun e c hc hcne h => ?_⟩
  · have hmem := lookup_mem h
    have hkeys : ∀ p ∈ errorMessages, p.1 ≠ "" ∧ p.2 ≠ "" := by decide
    have hcne : c ≠ "" := (hkeys _ hmem).1
    have hmne : m ≠ "" := (hkeys _ hmem).2
    unfold getErrorMessage
    rw [hc]
    simp [jsOr, truthy, hcne, h, hmne]
  · unfold getErrorMessage
    rw [hc]
    rcases hm : e.message with _ | s
    · simp [jsOr, truthy, hcne, h]
    · by_cases hs : s = ""
      · subst hs
        simp [jsOr, truthy, hcne, h]
      · simp [jsOr, truthy, hcne, h, hs]

/-- Witness for C7's amended statement: a recognized code mapping, and an
unrecognized code falling back to the raw message. -/
theorem getErrorMessage_behavior_witness :
    getErrorMessage ⟨some "not-found", none⟩ = "Document not found." ∧
    getErrorMessage ⟨some "mystery-code", some "raw detail"⟩ =
      (if truthy (some "raw detail") then (some "raw detail").getD ""
       else "An unexpected error occurred.") :=
  ⟨getErrorMessage_behavior.1 ⟨some "not-found", none⟩ "not-found"
      "Document not found." rfl (by decide),
   getErrorMessage_behavior.2.2 ⟨some "mystery-code", some "raw detail"⟩
      "mystery-code" rfl (by decide) (by decide)⟩

/-- Updating a key that is present makes a later lookup of that key return
the new value. -/
theorem assocFind_setBalance {cs : List (String × ℤ)} {ph : String} {pts : ℤ} (v : ℤ)
    (h : assocFind cs ph = some pts) : assocFind (setBalance cs ph v) ph = some v := by
  induction cs with
  | nil => simp [assocFind] at h
  | cons hd tl ih =>
    by_cases hph : hd.1 = ph
    · simp [setBalance, assocFind, hph]
    · rw [assocFind, if_neg hph] at h
      simp only [setBalance, List.map_cons, if_neg hph]
      rw [assocFind, if_neg hph]
      exact ih h

/-- C3: for every existing customer and valid (non-negative) amount,
`award_points` returns the incremented balance, sets exactly that balance
on the customer, appends exactly one Purchase record carrying the same
amount and `pointsEarned = calculatePoints amount`, and leaves redemptions
alone — all in one step; for an absent customer it fails with
`CustomerNotFound` and returns the state unchanged. -/
theorem award_points_correct (st : LedgerState) (phone : String) (amount : ℚ)
    (hamt : 0 ≤ amount) :
    (∀ pts : ℤ, assocFind st.customers (formatPhoneNumber phone) = some pts →
      award_points st phone amount =
        (Except.ok (pts + calculatePoints amount),
         ⟨setBalance st.customers (formatPhoneNumber phone) (pts + calculatePoints amount),
          st.purchases ++ [⟨formatPhoneNumber phone, amount, calculatePoints amount⟩],
          st.redemptions⟩) ∧
      assocFind (award_points st phone amount).2.customers (formatPhoneNumber phone) =
        some (pts + calculatePoints amount)) ∧
    (assocFind st.customers (formatPhoneNumber phone) = none →
      award_points st phone amount = (Except.error LedgerError.CustomerNotFound, st)) := by
  constructor
  · intro pts h
    have heq : award_points st phone amount =
        (Except.ok (pts + calculatePoints amount),
         ⟨setBalance st.customers (formatPhoneNumber phone) (pts + calculatePoints amount),
          st.purchases ++ [⟨formatPhoneNumber phone, amount, calculatePoints amount⟩],
          st.redemptions⟩) := by
      unfold award_points
      rw [if_neg (not_lt.mpr hamt)]
      simp only [h]
    refine ⟨heq, ?_⟩
    rw [heq]
    exact assocFind_setBalance _ h
  · intro h
    unfold award_points
    rw [if_neg (not_lt.mpr hamt)]
    simp only [h]

/-- Witness for C3: awarding 250 to a customer holding 7 points yields
balance 17 and the matching Purchase record. -/
theorem award_points_correct_witness :
    award_points ⟨[("+1234567890", 7)], [], []⟩ "+1234567890" 250 =
      (Except.ok (7 + calculatePoints 250),
       ⟨setBalance [("+1234567890", 7)] (formatPhoneNumber "+1234567890")
          (7 + calculatePoints 250),
        [] ++ [⟨formatPhoneNumber "+1234567890", 250, calculatePoints 250⟩],
        []⟩) :=
  ((award_points_correct ⟨[("+1234567890", 7)], [], []⟩ "+1234567890" 250
      (by norm_num)).1 7 (by decide)).1

/-- C4: whenever the customer exists but holds strictly fewer points than
the requested tier's cost, `redeem_points` fails with `InsufficientPoints`
and returns the ledger state unchanged. -/
theorem redeem_points_insufficient (st : LedgerState) (phone tier : String)
    (cost pts : ℤ)
    (hl : assocFind st.customers (formatPhoneNumber phone) = some pts)
    (hc : tierCost tier = some cost)
    (hlt : pts < cost) :
    redeem_points st phone tier = (Except.error LedgerError.InsufficientPoints, st) := by
  unfold redeem_points
  simp only [hl, hc]
  rw [if_pos hlt]

/-- Witness for C4: the spec's own example — `redeem_points(phone, "large")`
on a customer with 179 points fails with `InsufficientPoints` and leaves
the balance and records unchanged. -/
theorem redeem_points_insufficient_witness :
    redeem_points ⟨[("+1234567890", 179)], [], []⟩ "+1234567890" "large" =
      (Except.error LedgerError.InsufficientPoints,
       ⟨[("+1234567890", 179)], [], []⟩) :=
  redeem_points_insufficient ⟨[("+1234567890", 179)], [], []⟩ "+1234567890" "large"
    180 179 (by decide) (by decide) (by decide)

/-- C5: redeeming the "small" tier on a customer holding exactly 100 points
succeeds with new balance 0 and appends a Redemption with
`pointsSpent = 100`; immediately repeating the redemption on the resulting
state fails with `InsufficientPoints` and changes nothing further. -/
theorem redeem_small_at_100_then_insufficient :
    redeem_points ⟨[("+1234567890", 100)], [], []⟩ "+1234567890" "small" =
      (Except.ok 0,
       ⟨[("+1234567890", 0)], [], [⟨"+1234567890", "small", 100⟩]⟩) ∧
    redeem_points
        (redeem_points ⟨[("+1234567890", 100)], [], []⟩ "+1234567890" "small").2
        "+1234567890" "small" =
      (Except.error LedgerError.InsufficientPoints,
       ⟨[("+1234567890", 0)], [], [⟨"+1234567890", "small", 100⟩]⟩) := by
  refine ⟨by decide, by decide⟩

/-- Accumulating `pointsSpent` with a fold equals the sum of the mapped
field. -/
theorem foldl_add_pointsSpent (rs : List Redemption) (b : ℤ) :
    rs.foldl (fun acc d => acc + d.pointsSpent) b =
      b + (rs.map Redemption.pointsSpent).sum := by
  induction rs generalizing b with
  | nil => simp
  | cons hd tl ih => simp [ih, add_assoc]

/-- The paired purchase fold accumulates the sum of amounts and the sum of
earned points. -/
theorem foldl_purchase_pair (ps : List Purchase) (a : ℚ) (b : ℤ) :
    ps.foldl (fun acc d => (acc.1 + d.amount, acc.2 + d.pointsEarned)) (a, b) =
      (a + (ps.map Purchase.amount).sum, b + (ps.map Purchase.pointsEarned).sum) := by
  induction ps generalizing a b with
  | nil => simp
  | cons hd tl ih => simp [ih, add_assoc]

/-- C6: for every collection of Purchase and Redemption records,
`getStatistics` returns the sum of purchase amounts as `totalRevenue`, the
sum of `pointsEarned` as `totalPointsEarned`, the sum of `pointsSpent` as
`totalPointsRedeemed`, and `activePoints` exactly equal to
`totalPointsEarned - totalPointsRedeemed` (it is a pure function of its
inputs, hence side-effect free). -/
theorem getStatistics_correct (cs : List (String × ℤ)) (ps : List Purchase)
    (rs : List Redemption) :
    (getStatistics cs ps rs).totalRevenue = (ps.map Purchase.amount).sum ∧
    (getStatistics cs ps rs).totalPointsEarned = (ps.map Purchase.pointsEarned).sum ∧
    (getStatistics cs ps rs).totalPointsRedeemed = (rs.map Redemption.pointsSpent).sum ∧
    (getStatistics cs ps rs).activePoints =
      (getStatistics cs ps rs).totalPointsEarned -
        (getStatistics cs ps rs).totalPointsRedeemed := by
  unfold getStatistics
  rw [foldl_purchase_pair, foldl_add_pointsSpent]
  simp

/-- Witness for C6 on a concrete pair of one purchase and one redemption. -/
theorem getStatistics_correct_witness :
    (getStatistics [("+1234567890", 5)] [⟨"+1234567890", 250, 10⟩]
        [⟨"+1234567890", "small", 100⟩]).totalRevenue =
      (([⟨"+1234567890", 250, 10⟩] : List Purchase).map Purchase.amount).sum :=
  (getStatistics_correct [("+1234567890", 5)] [⟨"+1234567890", 250, 10⟩]
      [⟨"+1234567890", "small", 100⟩]).1

/-- C10: whenever the phone number fails validation or the password is
shorter than 6 characters, `createCustomer` returns `success = false` with
an error message and performs no write at all: the Auth user list and the
customers collection are exactly as before. -/
theorem createCustomer_invalid_rejected (st : AppState) (phone pw nm uid : String)
    (h : isValidPhoneNumber phone = false ∨ pw.length < 6) :
    (createCustomer st phone pw nm uid).1.success = false ∧
    ((createCustomer st phone pw nm uid).1.error).isSome = true ∧
    (createCustomer st phone pw nm uid).2 = st := by
  unfold createCustomer
  rcases h with h | h
  · simp [h]
  · by_cases hv : isValidPhoneNumber phone
    · simp [hv, h]
    · simp [hv]

/-- Witness for C10: an invalid phone (too short after normalization) is
rejected with no write, for a nonempty starting state. -/
theorem createCustomer_invalid_rejected_witness :
    (isValidPhoneNumber "123" = false ∨ ("secret123" : String).length < 6) ∧
    (createCustomer ⟨[], [("+1234567890", ⟨0, "T", "u1"⟩)]⟩ "123" "secret123" "Al" "u2").1.success
        = false ∧
    ((createCustomer ⟨[], [("+1234567890", ⟨0, "T", "u1"⟩)]⟩ "123" "secret123" "Al" "u2").1.error).isSome
        = true ∧
    (createCustomer ⟨[], [("+1234567890", ⟨0, "T", "u1"⟩)]⟩ "123" "secret123" "Al" "u2").2
        = ⟨[], [("+1234567890", ⟨0, "T", "u1"⟩)]⟩ := by
  constructor
  · exact Or.inl (by decide)
  · exact createCustomer_invalid_rejected ⟨[], [("+1234567890", ⟨0, "T", "u1"⟩)]⟩
      "123" "secret123" "Al" "u2" (Or.inl (by decide))

end PrimeCuts
